import Mathlib

/-!
Verification development for the VI_RestAPI backend (backend/index.js).

The Express application is shallowly embedded: each route handler becomes a
pure Lean function over explicit request data and explicit mutable state
(rate-limiter windows, the data table).  External collaborators that live
outside this repository (the Sequelize user/data stores, bcryptjs,
jsonwebtoken, express-rate-limit's counter store) are modelled by the
contracts the source relies on: fallible store and hash calls return
Except values, token signing and verification are modelled structurally,
and the rate limiter keeps a fixed per-address window as configured at
backend/index.js lines 42-51.

Clocks: JWT times are in seconds, limiter times in milliseconds, matching
the units each library uses; the two never mix in one definition.
-/

namespace RestApi

/-- JavaScript falsiness of an optional string value: `undefined` (absent
field) and the empty string are falsy.  This is the test performed by
`if (!email || !password)` and `if (!name || !city || !country)` in
backend/index.js. -/
def jsFalsy : Option String → Bool
  | none => true
  | some s => s == ""

/-- A parsed JSON request body restricted to string-valued fields, which is
the shape every validated field of this API has.  Field lookup models
property access on `req.body`. -/
def ReqBody := List (String × String)

/-- Property access `req.body.field`: `none` models `undefined`. -/
def lookupField (body : ReqBody) (k : String) : Option String :=
  List.lookup k body

/-- Claims payload passed to `jwt.sign` at backend/index.js line 128:
`{ userId: user.id, email: user.email }`. -/
structure JwtClaims where
  userId : Nat
  email : String
deriving DecidableEq, Repr

/-- A signed token as produced by `jwt.sign`: the claims, the issuance
time, the embedded expiry, and the secret it was signed with (standing for
the signature). -/
structure SignedToken where
  claims : JwtClaims
  iat : Nat
  exp : Nat
  sig : String
deriving DecidableEq, Repr

/-- The two verification failures of the jsonwebtoken library that this
application can hit: JsonWebTokenError (bad or unparsable signature) and
TokenExpiredError.  They are distinguishable internally (logged at
backend/index.js line 91) but both map to the same 403 response. -/
inductive JwtError where
  | badSignature
  | expired
deriving DecidableEq, Repr

/-- Result of `jwt.verify`. -/
inductive VerifyResult where
  | ok (claims : JwtClaims)
  | err (e : JwtError)
deriving DecidableEq, Repr

/-- `jwt.sign(claims, secret, { expiresIn: ttl })` at time `now` (seconds):
embeds expiry `now + ttlSeconds` and records the signing secret. -/
def jwtSign (claims : JwtClaims) (secret : String) (ttlSeconds : Nat) (now : Nat) : SignedToken :=
  { claims := claims, iat := now, exp := now + ttlSeconds, sig := secret }

/-- Verification of an already-parsed token: signature integrity first,
then expiry (a token is expired once `now` reaches `exp`). -/
def jwtVerifyTok (secret : String) (now : Nat) (tok : SignedToken) : VerifyResult :=
  if tok.sig = secret then
    if tok.exp ≤ now then .err .expired else .ok tok.claims
  else .err .badSignature

/-- `jwt.verify(tokenString, secret)` at time `now`: `decode` is the wire
parsing of the token string; an unparsable string fails like a bad
signature (JsonWebTokenError). -/
def jwtVerify (decode : String → Option SignedToken) (secret : String) (now : Nat)
    (t : String) : VerifyResult :=
  match decode t with
  | none => .err .badSignature
  | some tok => jwtVerifyTok secret now tok

/-- `process.env.JWT_EXPIRES_IN || '1h'` at backend/index.js line 130,
with durations in seconds: an unset (or empty, hence falsy) configuration
falls back to one hour = 3600 seconds. -/
def resolveTtl : Option Nat → Nat
  | none => 3600
  | some t => t

/-- JavaScript `authHeader.split(' ')` on the character list: splits at
every single space, keeping empty segments, exactly as the String
prototype method does. -/
def splitSp : List Char → List (List Char)
  | [] => [[]]
  | c :: cs =>
    if c = ' ' then [] :: splitSp cs
    else
      match splitSp cs with
      | [] => [[c]]
      | w :: ws => (c :: w) :: ws

/-- String-level `split(' ')`. -/
def jsSplit (s : String) : List String :=
  (splitSp s.data).map String.mk

/-- `const token = authHeader && authHeader.split(' ')[1]` combined with
the `if (!token)` guard at backend/index.js lines 80-86: the result is
`some t` exactly when the JavaScript `token` value is truthy. -/
def extractToken (authHeader : Option String) : Option String :=
  match authHeader with
  | none => none
  | some h =>
    match (jsSplit h).get? 1 with
    | none => none
    | some t => if t = "" then none else some t

/-- Outcome of running the auth middleware around a handler: either the
middleware answered itself (`res.status(s).json` with a message and no
call to `next()`), or it attached the decoded claims to the request and
ran the handler. -/
inductive AuthOutcome (α : Type) where
  | rejected (status : Nat) (message : String)
  | authorized (user : JwtClaims) (result : α)
deriving DecidableEq, Repr

/-- The `authenticateToken` middleware of backend/index.js lines 77-100,
parametric in the verification function `v` (instantiated with
`jwtVerify` by the application) and in the downstream handler `next`. -/
def authenticateToken (v : String → VerifyResult) (authHeader : Option String)
    (next : JwtClaims → α) : AuthOutcome α :=
  match extractToken authHeader with
  | none => .rejected 401 "Access token is missing or invalid"
  | some t =>
    match v t with
    | .err _ => .rejected 403 "Token is not valid or has expired"
    | .ok claims => .authorized claims (next claims)

/-- A user row of the `users` table (backend/index.js lines 57-60): the
`password` column stores the bcrypt hash. -/
structure UserRecord where
  id : Nat
  email : String
  password : String
deriving DecidableEq, Repr

/-- A row of the `data` table (backend/index.js lines 63-67). -/
structure DataRecord where
  id : Nat
  name : String
  city : String
  country : String
deriving DecidableEq, Repr

/-- A JavaScript error value as consumed by the handlers: optional
`status` and `message` properties (absent on most thrown values) plus the
stack trace.  `none` models an undefined property. -/
structure JsError where
  status : Option Nat
  message : Option String
  stack : String
deriving DecidableEq, Repr

/-- `a || b` on an optional string, with JavaScript falsiness: used for
`err.message || defaultMessage`. -/
def jsOrStr : Option String → String → String
  | none, d => d
  | some s, d => if s = "" then d else s

/-- `a || b` on an optional number, with JavaScript falsiness (0 is
falsy): used for `err.status || 500`. -/
def jsOrNat : Option Nat → Nat → Nat
  | none, d => d
  | some n, d => if n = 0 then d else n

/-- The JSON bodies this application ever sends, one constructor per
shape appearing in backend/index.js:
* `msg m` is a body of the form a single message field holding `m`;
* `loginOk` is the successful login body with token, userId and email;
* `dataRow` is a single created record, `dataRows` the full table;
* `versionInfo` is the body of POST /test with version and message;
* `msgWithStack` is the development-mode error body carrying the
  message together with the errorStack field. -/
inductive Body where
  | msg (m : String)
  | loginOk (token : SignedToken) (userId : Nat) (email : String)
  | dataRow (r : DataRecord)
  | dataRows (rs : List DataRecord)
  | versionInfo (version : String) (message : String)
  | msgWithStack (m : String) (stack : String)
deriving DecidableEq, Repr

/-- An HTTP response: status code and JSON body. -/
structure Response where
  status : Nat
  body : Body
deriving DecidableEq, Repr

/-- The process-wide configuration and external collaborators the
handlers use: the signing secret and token ttl from the environment, the
token wire parsing, and the fallible collaborator calls
`User.findOne({where: {email}})` and `bcrypt.compare` (an `Except.error`
models the promise rejecting, e.g. an unreachable store). -/
structure Env where
  jwtSecret : String
  jwtExpiresIn : Option Nat
  decodeToken : String → Option SignedToken
  findByEmail : String → Except JsError (Option UserRecord)
  bcryptCompare : String → String → Except JsError Bool

/-- The options object passed to `rateLimit` for the login limiter. -/
structure RateLimitConfig where
  windowMs : Nat
  max : Nat
  message : String
deriving DecidableEq, Repr

/-- The login limiter configuration of backend/index.js lines 42-51:
a 15 minute window and at most 10 requests per address. -/
def loginLimiter : RateLimitConfig :=
  { windowMs := 15 * 60 * 1000
    max := 10
    message := "Too many login attempts from this IP, please try again after 15 minutes" }

/-- Per-address window of the limiter store: start of the current window
(milliseconds) and the number of hits recorded in it. -/
structure RateWindow where
  windowStart : Nat
  count : Nat
deriving DecidableEq, Repr

/-- The limiter's shared state: one window per client address. -/
def LimiterState := List (String × RateWindow)

/-- Replace (or create) the window recorded for `ip`. -/
def limiterUpdate (st : LimiterState) (ip : String) (w : RateWindow) : LimiterState :=
  (ip, w) :: List.eraseP (fun p => p.1 == ip) st

/-- One limiter step, modelled from the spec's fixed-window contract for
the express-rate-limit collaborator: every incoming request is counted
into the address's current window (a fresh window starts at the request's
time when none exists or the old one has elapsed), and the request is
allowed exactly when the hit count stays within `cfg.max`.  Throttled
requests are answered by the limiter itself and never reach the handler. -/
def rateLimitCheck (cfg : RateLimitConfig) (st : LimiterState) (ip : String) (now : Nat) :
    Bool × LimiterState :=
  let w : RateWindow :=
    match List.lookup ip st with
    | some w => if now < w.windowStart + cfg.windowMs then ⟨w.windowStart, w.count + 1⟩ else ⟨now, 1⟩
    | none => ⟨now, 1⟩
  (decide (w.count ≤ cfg.max), limiterUpdate st ip w)

/-- The body of the POST /login handler (backend/index.js lines 103-141),
run once the limiter middleware has let the request through.  The second
component records whether the credential store was consulted
(`User.findOne` called).  A rejected store or hash promise lands in the
handler's own catch, which answers 500 with a fixed message. -/
def loginHandler (env : Env) (now : Nat) (body : ReqBody) : Response × Bool :=
  let email := lookupField body "email"
  let password := lookupField body "password"
  if jsFalsy email || jsFalsy password then
    (⟨400, .msg "Email and password are required."⟩, false)
  else
    match env.findByEmail (email.getD "") with
    | .error _ => (⟨500, .msg "Error logging in. Please try again."⟩, true)
    | .ok none => (⟨401, .msg "Invalid credentials."⟩, true)
    | .ok (some user) =>
      match env.bcryptCompare (password.getD "") user.password with
      | .error _ => (⟨500, .msg "Error logging in. Please try again."⟩, true)
      | .ok false => (⟨401, .msg "Invalid credentials."⟩, true)
      | .ok true =>
        let tok := jwtSign ⟨user.id, user.email⟩ env.jwtSecret (resolveTtl env.jwtExpiresIn) now
        (⟨200, .loginOk tok user.id user.email⟩, true)

/-- The full POST /login route: the `loginLimiter` middleware runs first
(throttled requests are answered with the configured message through the
custom handler at backend/index.js lines 47-50, statusCode 429), then the
login handler.  Returns the response, the new limiter state, and whether
the credential store was consulted. -/
def loginRoute (env : Env) (st : LimiterState) (now : Nat) (ip : String) (body : ReqBody) :
    Response × LimiterState × Bool :=
  let c := rateLimitCheck loginLimiter st ip now
  if c.1 then
    let r := loginHandler env now body
    (r.1, c.2, r.2)
  else
    (⟨429, .msg loginLimiter.message⟩, c.2, false)

/-- A sequence of login requests from one address with one body, at the
given times, threading the limiter state. -/
def runLogins (env : Env) (body : ReqBody) (ip : String) :
    LimiterState → List Nat → List (Response × Bool) × LimiterState
  | st, [] => ([], st)
  | st, t :: ts =>
    let r := loginRoute env st t ip body
    let rest := runLogins env body ip r.2.1 ts
    ((r.1, r.2.2) :: rest.1, rest.2)

/-- The `data` table together with the auto-increment counter Sequelize
maintains for the primary key. -/
structure DataStore where
  rows : List DataRecord
  nextId : Nat
deriving DecidableEq, Repr

/-- The body of the POST /data handler (backend/index.js lines 177-202),
run after the auth middleware; `Data.create` is modelled as the store
operating normally, appending the new row with the next id. -/
def postDataHandler (body : ReqBody) (ds : DataStore) : Response × DataStore :=
  let name := lookupField body "name"
  let city := lookupField body "city"
  let country := lookupField body "country"
  if jsFalsy name || jsFalsy city || jsFalsy country then
    (⟨400, .msg "Name, city, and country are required."⟩, ds)
  else
    let r : DataRecord := ⟨ds.nextId, name.getD "", city.getD "", country.getD ""⟩
    (⟨201, .dataRow r⟩, ⟨ds.rows ++ [r], ds.nextId + 1⟩)

/-- Mutable application state threaded across requests. -/
structure AppState where
  limiter : LimiterState
  dataStore : DataStore

/-- An incoming HTTP request as the routes consume it. -/
structure Request where
  method : String
  path : String
  authorization : Option String
  body : ReqBody
  ip : String

/-- A protected route: the `authenticateToken` middleware instantiated
with `jwt.verify` under the process secret; a rejection is rendered as
the middleware's status and message body, otherwise the handler's result
stands. -/
def protectedRoute (env : Env) (now : Nat) (req : Request) (st : AppState)
    (handler : JwtClaims → Response × AppState) : Response × AppState :=
  match authenticateToken (jwtVerify env.decodeToken env.jwtSecret now) req.authorization handler with
  | .rejected s m => (⟨s, .msg m⟩, st)
  | .authorized _ r => r

/-- The application's routing, in registration order (backend/index.js):
POST /login, GET /data, POST /test, POST /data, then the 404 handler. -/
def handleApp (env : Env) (now : Nat) (st : AppState) (req : Request) : Response × AppState :=
  if req.method = "POST" ∧ req.path = "/login" then
    let r := loginRoute env st.limiter now req.ip req.body
    (r.1, { st with limiter := r.2.1 })
  else if req.method = "GET" ∧ req.path = "/data" then
    protectedRoute env now req st (fun _ => (⟨200, .dataRows st.dataStore.rows⟩, st))
  else if req.method = "POST" ∧ req.path = "/test" then
    protectedRoute env now req st
      (fun _ => (⟨200, .versionInfo "1.0.0" "Test endpoint reached successfully."⟩, st))
  else if req.method = "POST" ∧ req.path = "/data" then
    protectedRoute env now req st (fun _ =>
      let r := postDataHandler req.body st.dataStore
      (r.1, { st with dataStore := r.2 }))
  else
    (⟨404, .msg "Resource not found."⟩, st)

/-- The terminal error-handling middleware (backend/index.js lines
211-224), for the case where the response has not been sent yet: status
is the error's own status when truthy (500 otherwise), the body carries
the error's message when truthy (a fixed default otherwise), and the
errorStack field is added exactly in development mode. -/
def generalErrorHandler (devMode : Bool) (e : JsError) : Response :=
  { status := jsOrNat e.status 500
    body :=
      if devMode then
        .msgWithStack (jsOrStr e.message "An unexpected error occurred on the server.") e.stack
      else
        .msg (jsOrStr e.message "An unexpected error occurred on the server.") }

/-- Modelled from the claim's words, for comparison with the source's
`split(' ')[1]`: the substring of the header value after the first
space (none when the value contains no space). -/
def afterFirstSpace : List Char → Option (List Char)
  | [] => none
  | c :: cs => if c = ' ' then some cs else afterFirstSpace cs

/-- String-level form of `afterFirstSpace`. -/
def substringAfterFirstSpace (h : String) : Option String :=
  (afterFirstSpace h.data).map String.mk

/-! ### Helper lemmas on the login handler -/

lemma jsFalsy_some_ne {s : String} (h : s ≠ "") : jsFalsy (some s) = false := by
  simp [jsFalsy, h]

lemma loginHandler_missing (env : Env) (now : Nat) (body : ReqBody)
    (h : (jsFalsy (lookupField body "email") || jsFalsy (lookupField body "password")) = true) :
    loginHandler env now body = (⟨400, .msg "Email and password are required."⟩, false) := by
  simp [loginHandler, h]

lemma loginHandler_storeError (env : Env) (now : Nat) (body : ReqBody) {e p : String}
    (he : lookupField body "email" = some e) (he' : e ≠ "")
    (hp : lookupField body "password" = some p) (hp' : p ≠ "")
    {err : JsError} (hf : env.findByEmail e = .error err) :
    loginHandler env now body = (⟨500, .msg "Error logging in. Please try again."⟩, true) := by
  simp [loginHandler, he, hp, jsFalsy_some_ne he', jsFalsy_some_ne hp', hf]

lemma loginHandler_noUser (env : Env) (now : Nat) (body : ReqBody) {e p : String}
    (he : lookupField body "email" = some e) (he' : e ≠ "")
    (hp : lookupField body "password" = some p) (hp' : p ≠ "")
    (hf : env.findByEmail e = .ok none) :
    loginHandler env now body = (⟨401, .msg "Invalid credentials."⟩, true) := by
  simp [loginHandler, he, hp, jsFalsy_some_ne he', jsFalsy_some_ne hp', hf]

lemma loginHandler_hashError (env : Env) (now : Nat) (body : ReqBody) {e p : String}
    (he : lookupField body "email" = some e) (he' : e ≠ "")
    (hp : lookupField body "password" = some p) (hp' : p ≠ "")
    {u : UserRecord} (hf : env.findByEmail e = .ok (some u))
    {err : JsError} (hb : env.bcryptCompare p u.password = .error err) :
    loginHandler env now body = (⟨500, .msg "Error logging in. Please try again."⟩, true) := by
  simp [loginHandler, he, hp, jsFalsy_some_ne he', jsFalsy_some_ne hp', hf, hb]

lemma loginHandler_badPassword (env : Env) (now : Nat) (body : ReqBody) {e p : String}
    (he : lookupField body "email" = some e) (he' : e ≠ "")
    (hp : lookupField body "password" = some p) (hp' : p ≠ "")
    {u : UserRecord} (hf : env.findByEmail e = .ok (some u))
    (hb : env.bcryptCompare p u.password = .ok false) :
    loginHandler env now body = (⟨401, .msg "Invalid credentials."⟩, true) := by
  simp [loginHandler, he, hp, jsFalsy_some_ne he', jsFalsy_some_ne hp', hf, hb]

lemma loginHandler_success (env : Env) (now : Nat) (body : ReqBody) {e p : String}
    (he : lookupField body "email" = some e) (he' : e ≠ "")
    (hp : lookupField body "password" = some p) (hp' : p ≠ "")
    {u : UserRecord} (hf : env.findByEmail e = .ok (some u))
    (hb : env.bcryptCompare p u.password = .ok true) :
    loginHandler env now body =
      (⟨200, .loginOk (jwtSign ⟨u.id, u.email⟩ env.jwtSecret (resolveTtl env.jwtExpiresIn) now)
          u.id u.email⟩, true) := by
  simp [loginHandler, he, hp, jsFalsy_some_ne he', jsFalsy_some_ne hp', hf, hb]

lemma loginHandler_consults (env : Env) (now : Nat) (body : ReqBody) {e p : String}
    (he : lookupField body "email" = some e) (he' : e ≠ "")
    (hp : lookupField body "password" = some p) (hp' : p ≠ "") :
    (loginHandler env now body).2 = true := by
  cases hf : env.findByEmail e with
  | error err => rw [loginHandler_storeError env now body he he' hp hp' hf]
  | ok o =>
    cases o with
    | none => rw [loginHandler_noUser env now body he he' hp hp' hf]
    | some u =>
      cases hb : env.bcryptCompare p u.password with
      | error err => rw [loginHandler_hashError env now body he he' hp hp' hf hb]
      | ok b =>
        cases b with
        | false => rw [loginHandler_badPassword env now body he he' hp hp' hf hb]
        | true => rw [loginHandler_success env now body he he' hp hp' hf hb]

/-! ### Demonstration environments used by the witnesses -/

/-- A stored user whose bcrypt hash matches the password checked by
`envDemo.bcryptCompare`. -/
def demoUser : UserRecord := ⟨1, "user@example.com", "hash1"⟩

/-- A token issued for `demoUser` under the demo secret, expiring at 3600. -/
def demoToken : SignedToken := ⟨⟨1, "user@example.com"⟩, 0, 3600, "secret"⟩

/-- A store-connection failure as Sequelize would reject with. -/
def demoErr : JsError := ⟨none, some "connect ECONNREFUSED 127.0.0.1:3306", "at Connection.connect"⟩

/-- Collaborators operating normally: one stored user, a hash check that
accepts exactly the pair used by the witnesses, and a wire format that
parses exactly one token string. -/
def envDemo : Env where
  jwtSecret := "secret"
  jwtExpiresIn := none
  decodeToken := fun s => if s = "tok1" then some demoToken else none
  findByEmail := fun e => Except.ok (if e = "user@example.com" then some demoUser else none)
  bcryptCompare := fun p h => Except.ok (p == "pw" && h == "hash1")

/-- The credential store unreachable: every lookup rejects. -/
def envStoreDown : Env where
  jwtSecret := "secret"
  jwtExpiresIn := none
  decodeToken := fun _ => none
  findByEmail := fun _ => Except.error demoErr
  bcryptCompare := fun _ _ => Except.error demoErr

/-- The store answers but the hashing library throws. -/
def envHashDown : Env where
  jwtSecret := "secret"
  jwtExpiresIn := none
  decodeToken := fun _ => none
  findByEmail := fun e => Except.ok (if e = "user@example.com" then some demoUser else none)
  bcryptCompare := fun _ _ => Except.error demoErr

/-! ### C2: the two authentication failures are indistinguishable -/

/-- C2: for every POST /login request with both fields present that does
not authenticate, whether because no user record has that email or
because the password check fails against the found record's hash, the
response is status 401 with exactly the message body
"Invalid credentials.", identical in both cases. -/
theorem login_invalid_credentials_indistinguishable
    (env : Env) (now : Nat) (body : ReqBody) (e p : String)
    (he : lookupField body "email" = some e) (he' : e ≠ "")
    (hp : lookupField body "password" = some p) (hp' : p ≠ "") :
    (env.findByEmail e = .ok none →
      (loginHandler env now body).1 = ⟨401, .msg "Invalid credentials."⟩) ∧
    (∀ u : UserRecord, env.findByEmail e = .ok (some u) →
      env.bcryptCompare p u.password = .ok false →
      (loginHandler env now body).1 = ⟨401, .msg "Invalid credentials."⟩) := by
  constructor
  · intro hf
    rw [loginHandler_noUser env now body he he' hp hp' hf]
  · intro u hf hb
    rw [loginHandler_badPassword env now body he he' hp hp' hf hb]

/-- Witness for C2: under the demo collaborators, an unknown email and a
known email with the wrong password both produce the very same 401
response. -/
theorem login_invalid_credentials_indistinguishable_witness :
    (loginHandler envDemo 0 [("email", "ghost@example.com"), ("password", "pw")]).1 =
      ⟨401, .msg "Invalid credentials."⟩ ∧
    (loginHandler envDemo 0 [("email", "user@example.com"), ("password", "wrong")]).1 =
      ⟨401, .msg "Invalid credentials."⟩ :=
  ⟨(login_invalid_credentials_indistinguishable envDemo 0
        [("email", "ghost@example.com"), ("password", "pw")] "ghost@example.com" "pw"
        rfl (by decide) rfl (by decide)).1 rfl,
   (login_invalid_credentials_indistinguishable envDemo 0
        [("email", "user@example.com"), ("password", "wrong")] "user@example.com" "wrong"
        rfl (by decide) rfl (by decide)).2 demoUser rfl rfl⟩

/-! ### C5: successful login -/

/-- C5: for every POST /login request whose email and password match a
stored record, the response is 200 with body carrying the token, the
record's id and the record's email; the token's decoded claims are that
same id and email, and its embedded expiry is the issuance time plus the
configured ttl, 3600 seconds (one hour) when none is configured. -/
theorem login_success_token
    (env : Env) (now : Nat) (body : ReqBody) (e p : String) (u : UserRecord)
    (he : lookupField body "email" = some e) (he' : e ≠ "")
    (hp : lookupField body "password" = some p) (hp' : p ≠ "")
    (hf : env.findByEmail e = .ok (some u))
    (hb : env.bcryptCompare p u.password = .ok true) :
    loginHandler env now body =
      (⟨200, .loginOk (jwtSign ⟨u.id, u.email⟩ env.jwtSecret (resolveTtl env.jwtExpiresIn) now)
          u.id u.email⟩, true) ∧
    (jwtSign ⟨u.id, u.email⟩ env.jwtSecret (resolveTtl env.jwtExpiresIn) now).claims =
      ⟨u.id, u.email⟩ ∧
    (jwtSign ⟨u.id, u.email⟩ env.jwtSecret (resolveTtl env.jwtExpiresIn) now).exp =
      now + resolveTtl env.jwtExpiresIn ∧
    (env.jwtExpiresIn = none → resolveTtl env.jwtExpiresIn = 3600) := by
  refine ⟨loginHandler_success env now body he he' hp hp' hf hb, rfl, rfl, ?_⟩
  intro h
  rw [h]
  rfl

/-- Witness for C5: the demo user logs in at time 100 and receives a
token for id 1 and the stored email, expiring at 100 + 3600. -/
theorem login_success_token_witness :
    loginHandler envDemo 100 [("email", "user@example.com"), ("password", "pw")] =
      (⟨200, .loginOk ⟨⟨1, "user@example.com"⟩, 100, 3700, "secret"⟩ 1 "user@example.com"⟩,
        true) :=
  (login_success_token envDemo 100 [("email", "user@example.com"), ("password", "pw")]
      "user@example.com" "pw" demoUser rfl (by decide) rfl (by decide)
      rfl rfl).1

/-! ### C10: empty-string fields are rejected as missing -/

/-- C10: field presence is JavaScript falsiness, so a field bound to the
empty string is rejected exactly like an absent one: POST /login answers
400 without consulting the credential store, and POST /data (after
authentication) answers 400 and leaves the store unchanged. -/
theorem empty_string_fields_rejected (env : Env) (now : Nat) (body : ReqBody) :
    ((lookupField body "email" = some "" ∨ lookupField body "password" = some "") →
      loginHandler env now body = (⟨400, .msg "Email and password are required."⟩, false)) ∧
    (∀ ds : DataStore,
      (lookupField body "name" = some "" ∨ lookupField body "city" = some "" ∨
        lookupField body "country" = some "") →
      postDataHandler body ds = (⟨400, .msg "Name, city, and country are required."⟩, ds)) := by
  constructor
  · intro h
    apply loginHandler_missing
    rcases h with h | h <;> simp [h, jsFalsy]
  · intro ds h
    have hcond : (jsFalsy (lookupField body "name") || jsFalsy (lookupField body "city") ||
        jsFalsy (lookupField body "country")) = true := by
      rcases h with h | h | h <;> simp [h, jsFalsy]
    simp [postDataHandler, hcond]

/-- Witness for C10: an empty password is answered 400 by the login
handler with the store untouched, and an empty city is answered 400 by
the data handler with the table unchanged. -/
theorem empty_string_fields_rejected_witness :
    loginHandler envDemo 0 [("email", "user@example.com"), ("password", "")] =
      (⟨400, .msg "Email and password are required."⟩, false) ∧
    postDataHandler [("name", "n"), ("city", ""), ("country", "c")] ⟨[], 1⟩ =
      (⟨400, .msg "Name, city, and country are required."⟩, ⟨[], 1⟩) :=
  ⟨(empty_string_fields_rejected envDemo 0
      [("email", "user@example.com"), ("password", "")]).1 (Or.inr rfl),
   (empty_string_fields_rejected envDemo 0
      [("name", "n"), ("city", ""), ("country", "c")]).2 ⟨[], 1⟩ (Or.inr (Or.inl rfl))⟩

/-! ### Helper lemmas on the login route -/

lemma loginRoute_of_allowed (env : Env) (st : LimiterState) (now : Nat) (ip : String)
    (body : ReqBody) (h : (rateLimitCheck loginLimiter st ip now).1 = true) :
    loginRoute env st now ip body =
      ((loginHandler env now body).1, (rateLimitCheck loginLimiter st ip now).2,
        (loginHandler env now body).2) := by
  simp [loginRoute, h]

lemma loginRoute_of_throttled (env : Env) (st : LimiterState) (now : Nat) (ip : String)
    (body : ReqBody) (h : (rateLimitCheck loginLimiter st ip now).1 = false) :
    loginRoute env st now ip body =
      (⟨429, .msg loginLimiter.message⟩, (rateLimitCheck loginLimiter st ip now).2, false) := by
  simp [loginRoute, h]

/-! ### C1: order of the login steps

The spec puts payload validation before the rate-limit check, but
`loginLimiter` is installed as route middleware
(`app.post('/login', loginLimiter, handler)`), so it runs and can answer
before the handler's validation ever executes. -/

/-- Counterexample to C1 as stated: a request with both fields missing,
sent from an address that has already used up its 10 attempts in the
current window, receives the throttle response, not the 400 validation
response the claim promises. -/
theorem throttled_missing_field_gets_throttle_message :
    loginRoute envDemo [("1.2.3.4", ⟨0, 10⟩)] 1 "1.2.3.4" [] =
      (⟨429, .msg loginLimiter.message⟩, [("1.2.3.4", ⟨0, 11⟩)], false) ∧
    (loginRoute envDemo [("1.2.3.4", ⟨0, 10⟩)] 1 "1.2.3.4" []).1 ≠
      ⟨400, .msg "Email and password are required."⟩ := by
  exact ⟨rfl, by decide⟩

/-- C1 amended: for every POST /login request the route performs, in
order and each short-circuiting on failure: first the per-address
rate-limit check (middleware, answering with the throttle message when
the address has exceeded its window), then validation of email and
password presence (400 when either is missing), then the credential
lookup (and then password check and token issuance).  In particular a
request with a missing field from a throttled address receives the
throttle response, since the rate-limit check precedes validation. -/
theorem login_rate_limit_precedes_validation (env : Env) (st : LimiterState) (now : Nat)
    (ip : String) (body : ReqBody) :
    ((rateLimitCheck loginLimiter st ip now).1 = false →
      loginRoute env st now ip body =
        (⟨429, .msg loginLimiter.message⟩, (rateLimitCheck loginLimiter st ip now).2, false)) ∧
    ((rateLimitCheck loginLimiter st ip now).1 = true →
      (jsFalsy (lookupField body "email") || jsFalsy (lookupField body "password")) = true →
      loginRoute env st now ip body =
        (⟨400, .msg "Email and password are required."⟩,
          (rateLimitCheck loginLimiter st ip now).2, false)) ∧
    (∀ e p : String, (rateLimitCheck loginLimiter st ip now).1 = true →
      lookupField body "email" = some e → e ≠ "" →
      lookupField body "password" = some p → p ≠ "" →
      (loginRoute env st now ip body).2.2 = true) := by
  refine ⟨loginRoute_of_throttled env st now ip body, ?_, ?_⟩
  · intro hall hmiss
    rw [loginRoute_of_allowed env st now ip body hall, loginHandler_missing env now body hmiss]
  · intro e p hall he he' hp hp'
    rw [loginRoute_of_allowed env st now ip body hall]
    exact loginHandler_consults env now body he he' hp hp'

/-- Witness for the amended C1: a throttled address is answered with the
throttle message even with valid fields; an unthrottled address with an
empty body gets the 400 validation response; an unthrottled address with
both fields present reaches the credential store. -/
theorem login_rate_limit_precedes_validation_witness :
    loginRoute envDemo [("9.9.9.9", ⟨0, 10⟩)] 5 "9.9.9.9"
        [("email", "user@example.com"), ("password", "pw")] =
      (⟨429, .msg loginLimiter.message⟩, [("9.9.9.9", ⟨0, 11⟩)], false) ∧
    loginRoute envDemo [] 5 "9.9.9.9" [] =
      (⟨400, .msg "Email and password are required."⟩, [("9.9.9.9", ⟨5, 1⟩)], false) ∧
    (loginRoute envDemo [] 5 "9.9.9.9"
        [("email", "user@example.com"), ("password", "pw")]).2.2 = true :=
  ⟨(login_rate_limit_precedes_validation envDemo [("9.9.9.9", ⟨0, 10⟩)] 5 "9.9.9.9"
      [("email", "user@example.com"), ("password", "pw")]).1 rfl,
   (login_rate_limit_precedes_validation envDemo [] 5 "9.9.9.9" []).2.1 rfl rfl,
   (login_rate_limit_precedes_validation envDemo [] 5 "9.9.9.9"
      [("email", "user@example.com"), ("password", "pw")]).2.2 "user@example.com" "pw"
      rfl rfl (by decide) rfl (by decide)⟩

/-! ### C6: what the 500 paths expose

The handler-level catch in POST /login answers with a fixed generic 500,
but the terminal error handler echoes the escaped error's own message in
the response body in every mode, and uses the error's own status when it
has one; only the stack trace is confined to development mode. -/

/-- Counterexample to C6 as stated: in production mode (devMode false) an
error escaping a handler with a status of its own and a revealing message
is answered with that status and that message in the body, so the
response is neither a 500 nor free of detail from the underlying fault. -/
theorem error_handler_leaks_fault_message :
    generalErrorHandler false
        ⟨some 503, some "connect ECONNREFUSED 127.0.0.1:3306", "at Connection.connect"⟩ =
      ⟨503, .msg "connect ECONNREFUSED 127.0.0.1:3306"⟩ ∧
    (generalErrorHandler false
        ⟨some 503, some "connect ECONNREFUSED 127.0.0.1:3306", "at Connection.connect"⟩).status
      ≠ 500 := by
  exact ⟨rfl, by decide⟩

/-- C6 amended: failures inside the login handler (store unreachable,
hashing throws) are caught there and answered with a fixed generic 500
carrying no detail from the fault; an error escaping a handler reaches
the terminal handler, which responds with the error's own status when
truthy (500 otherwise) and echoes the error's own message in the body in
every mode (a fixed default only when the error has none); the stack
trace is added to the body exactly in development mode. -/
theorem error_handling_amended (env : Env) (now : Nat) (body : ReqBody) (e p : String)
    (he : lookupField body "email" = some e) (he' : e ≠ "")
    (hp : lookupField body "password" = some p) (hp' : p ≠ "")
    (err : JsError) :
    (env.findByEmail e = .error err →
      loginHandler env now body = (⟨500, .msg "Error logging in. Please try again."⟩, true)) ∧
    (∀ u : UserRecord, env.findByEmail e = .ok (some u) →
      env.bcryptCompare p u.password = .error err →
      loginHandler env now body = (⟨500, .msg "Error logging in. Please try again."⟩, true)) ∧
    (∀ d : Bool, (generalErrorHandler d err).status = jsOrNat err.status 500) ∧
    (generalErrorHandler false err).body =
      .msg (jsOrStr err.message "An unexpected error occurred on the server.") ∧
    (generalErrorHandler true err).body =
      .msgWithStack (jsOrStr err.message "An unexpected error occurred on the server.")
        err.stack := by
  refine ⟨?_, ?_, ?_, rfl, rfl⟩
  · intro hf
    exact loginHandler_storeError env now body he he' hp hp' hf
  · intro u hf hb
    exact loginHandler_hashError env now body he he' hp hp' hf hb
  · intro d
    cases d <;> rfl

/-- Witness for the amended C6: with the store unreachable and with the
hash library throwing, the login handler answers the fixed generic 500;
the terminal handler in production echoes the connection error's message. -/
theorem error_handling_amended_witness :
    loginHandler envStoreDown 0 [("email", "user@example.com"), ("password", "pw")] =
      (⟨500, .msg "Error logging in. Please try again."⟩, true) ∧
    loginHandler envHashDown 0 [("email", "user@example.com"), ("password", "pw")] =
      (⟨500, .msg "Error logging in. Please try again."⟩, true) ∧
    (generalErrorHandler false demoErr).body = .msg "connect ECONNREFUSED 127.0.0.1:3306" :=
  ⟨(error_handling_amended envStoreDown 0
      [("email", "user@example.com"), ("password", "pw")] "user@example.com" "pw"
      rfl (by decide) rfl (by decide) demoErr).1 rfl,
   (error_handling_amended envHashDown 0
      [("email", "user@example.com"), ("password", "pw")] "user@example.com" "pw"
      rfl (by decide) rfl (by decide) demoErr).2.1 demoUser rfl rfl,
   (error_handling_amended envStoreDown 0
      [("email", "user@example.com"), ("password", "pw")] "user@example.com" "pw"
      rfl (by decide) rfl (by decide) demoErr).2.2.2.1⟩

/-! ### Helper lemmas on protected routes -/

lemma protectedRoute_noToken (env : Env) (now : Nat) (req : Request) (st : AppState)
    (handler : JwtClaims → Response × AppState)
    (h : extractToken req.authorization = none) :
    protectedRoute env now req st handler =
      (⟨401, .msg "Access token is missing or invalid"⟩, st) := by
  simp [protectedRoute, authenticateToken, h]

lemma protectedRoute_badToken (env : Env) (now : Nat) (req : Request) (st : AppState)
    (handler : JwtClaims → Response × AppState) {t : String} {e : JwtError}
    (ht : extractToken req.authorization = some t)
    (hv : jwtVerify env.decodeToken env.jwtSecret now t = .err e) :
    protectedRoute env now req st handler =
      (⟨403, .msg "Token is not valid or has expired"⟩, st) := by
  simp [protectedRoute, authenticateToken, ht, hv]

lemma protectedRoute_ok (env : Env) (now : Nat) (req : Request) (st : AppState)
    (handler : JwtClaims → Response × AppState) {t : String} {c : JwtClaims}
    (ht : extractToken req.authorization = some t)
    (hv : jwtVerify env.decodeToken env.jwtSecret now t = .ok c) :
    protectedRoute env now req st handler = handler c := by
  simp [protectedRoute, authenticateToken, ht, hv]

lemma handleApp_get_data (env : Env) (now : Nat) (st : AppState) (auth : Option String)
    (body : ReqBody) (ip : String) :
    handleApp env now st ⟨"GET", "/data", auth, body, ip⟩ =
      protectedRoute env now ⟨"GET", "/data", auth, body, ip⟩ st
        (fun _ => (⟨200, .dataRows st.dataStore.rows⟩, st)) := by
  simp [handleApp]

lemma handleApp_post_test (env : Env) (now : Nat) (st : AppState) (auth : Option String)
    (body : ReqBody) (ip : String) :
    handleApp env now st ⟨"POST", "/test", auth, body, ip⟩ =
      protectedRoute env now ⟨"POST", "/test", auth, body, ip⟩ st
        (fun _ => (⟨200, .versionInfo "1.0.0" "Test endpoint reached successfully."⟩, st)) := by
  simp [handleApp]

lemma handleApp_post_data (env : Env) (now : Nat) (st : AppState) (auth : Option String)
    (body : ReqBody) (ip : String) :
    handleApp env now st ⟨"POST", "/data", auth, body, ip⟩ =
      protectedRoute env now ⟨"POST", "/data", auth, body, ip⟩ st (fun _ =>
        let r := postDataHandler body st.dataStore
        (r.1, { st with dataStore := r.2 })) := by
  simp [handleApp]

/-! ### C4: the auth middleware gatekeeps the protected routes -/

/-- C4: for every request to a protected route (GET /data, POST /data):
when no bearer token can be extracted from the Authorization header, the
middleware answers 401 and the route handler is never invoked (the
application state is returned untouched); when a token is present but
verification fails, for either failure kind, the middleware answers the
same 403 response in both cases; when verification succeeds, the decoded
claims are attached to the request (the authorized outcome carries them)
and the handler runs on them. -/
theorem auth_middleware_gatekeeping (env : Env) (now : Nat) (st : AppState)
    (auth : Option String) (body : ReqBody) (ip : String) :
    (extractToken auth = none →
      handleApp env now st ⟨"GET", "/data", auth, body, ip⟩ =
        (⟨401, .msg "Access token is missing or invalid"⟩, st) ∧
      handleApp env now st ⟨"POST", "/data", auth, body, ip⟩ =
        (⟨401, .msg "Access token is missing or invalid"⟩, st)) ∧
    (∀ (t : String) (e : JwtError), extractToken auth = some t →
      jwtVerify env.decodeToken env.jwtSecret now t = .err e →
      handleApp env now st ⟨"GET", "/data", auth, body, ip⟩ =
        (⟨403, .msg "Token is not valid or has expired"⟩, st) ∧
      handleApp env now st ⟨"POST", "/data", auth, body, ip⟩ =
        (⟨403, .msg "Token is not valid or has expired"⟩, st)) ∧
    (∀ (t : String) (c : JwtClaims), extractToken auth = some t →
      jwtVerify env.decodeToken env.jwtSecret now t = .ok c →
      (∀ f : JwtClaims → Response × AppState,
        authenticateToken (jwtVerify env.decodeToken env.jwtSecret now) auth f =
          .authorized c (f c)) ∧
      handleApp env now st ⟨"GET", "/data", auth, body, ip⟩ =
        (⟨200, .dataRows st.dataStore.rows⟩, st) ∧
      handleApp env now st ⟨"POST", "/data", auth, body, ip⟩ =
        ((postDataHandler body st.dataStore).1,
          { st with dataStore := (postDataHandler body st.dataStore).2 })) := by
  refine ⟨?_, ?_, ?_⟩
  · intro h
    rw [handleApp_get_data, handleApp_post_data]
    exact ⟨protectedRoute_noToken env now _ st _ h, protectedRoute_noToken env now _ st _ h⟩
  · intro t e ht hv
    rw [handleApp_get_data, handleApp_post_data]
    exact ⟨protectedRoute_badToken env now _ st _ ht hv,
      protectedRoute_badToken env now _ st _ ht hv⟩
  · intro t c ht hv
    refine ⟨?_, ?_, ?_⟩
    · intro f
      simp [authenticateToken, ht, hv]
    · rw [handleApp_get_data, protectedRoute_ok env now _ st _ ht hv]
    · rw [handleApp_post_data, protectedRoute_ok env now _ st _ ht hv]

/-- Witness for C4: with the demo collaborators, a missing header is
answered 401, an unparsable token 403, and the demo token reads the
seeded table. -/
theorem auth_middleware_gatekeeping_witness :
    handleApp envDemo 0 ⟨[], ⟨[⟨1, "Alice", "Paris", "FR"⟩], 2⟩⟩
        ⟨"GET", "/data", none, [], "1.2.3.4"⟩ =
      (⟨401, .msg "Access token is missing or invalid"⟩, ⟨[], ⟨[⟨1, "Alice", "Paris", "FR"⟩], 2⟩⟩) ∧
    handleApp envDemo 0 ⟨[], ⟨[⟨1, "Alice", "Paris", "FR"⟩], 2⟩⟩
        ⟨"GET", "/data", some "Bearer garbage", [], "1.2.3.4"⟩ =
      (⟨403, .msg "Token is not valid or has expired"⟩, ⟨[], ⟨[⟨1, "Alice", "Paris", "FR"⟩], 2⟩⟩) ∧
    handleApp envDemo 0 ⟨[], ⟨[⟨1, "Alice", "Paris", "FR"⟩], 2⟩⟩
        ⟨"GET", "/data", some "Bearer tok1", [], "1.2.3.4"⟩ =
      (⟨200, .dataRows [⟨1, "Alice", "Paris", "FR"⟩]⟩, ⟨[], ⟨[⟨1, "Alice", "Paris", "FR"⟩], 2⟩⟩) :=
  ⟨((auth_middleware_gatekeeping envDemo 0 ⟨[], ⟨[⟨1, "Alice", "Paris", "FR"⟩], 2⟩⟩
      none [] "1.2.3.4").1 rfl).1,
   ((auth_middleware_gatekeeping envDemo 0 ⟨[], ⟨[⟨1, "Alice", "Paris", "FR"⟩], 2⟩⟩
      (some "Bearer garbage") [] "1.2.3.4").2.1 "garbage" .badSignature rfl rfl).1,
   ((auth_middleware_gatekeeping envDemo 0 ⟨[], ⟨[⟨1, "Alice", "Paris", "FR"⟩], 2⟩⟩
      (some "Bearer tok1") [] "1.2.3.4").2.2 "tok1" ⟨1, "user@example.com"⟩ rfl rfl).2.1⟩

/-! ### C8: the undocumented POST /test endpoint -/

/-- C8: the service exposes a protected POST /test endpoint: every
request to it carrying a token that verifies is answered 200 with the
version body, so it is not the case that every method and path outside
POST /login, GET /data and POST /data receives the 404 response. -/
theorem test_endpoint_exists (env : Env) (now : Nat) (st : AppState)
    (auth : Option String) (body : ReqBody) (ip : String) (t : String) (c : JwtClaims)
    (ht : extractToken auth = some t)
    (hv : jwtVerify env.decodeToken env.jwtSecret now t = .ok c) :
    handleApp env now st ⟨"POST", "/test", auth, body, ip⟩ =
      (⟨200, .versionInfo "1.0.0" "Test endpoint reached successfully."⟩, st) ∧
    (handleApp env now st ⟨"POST", "/test", auth, body, ip⟩).1.status ≠ 404 ∧
    ("POST", "/test") ∉
      ([("POST", "/login"), ("GET", "/data"), ("POST", "/data")] : List (String × String)) := by
  have h1 : handleApp env now st ⟨"POST", "/test", auth, body, ip⟩ =
      (⟨200, .versionInfo "1.0.0" "Test endpoint reached successfully."⟩, st) := by
    rw [handleApp_post_test, protectedRoute_ok env now _ st _ ht hv]
  refine ⟨h1, ?_, by decide⟩
  rw [h1]
  simp

/-- Witness for C8: the demo token reaches POST /test and receives the
version body. -/
theorem test_endpoint_exists_witness :
    handleApp envDemo 0 ⟨[], ⟨[], 1⟩⟩ ⟨"POST", "/test", some "Bearer tok1", [], "1.2.3.4"⟩ =
      (⟨200, .versionInfo "1.0.0" "Test endpoint reached successfully."⟩, ⟨[], ⟨[], 1⟩⟩) :=
  (test_endpoint_exists envDemo 0 ⟨[], ⟨[], 1⟩⟩ (some "Bearer tok1") [] "1.2.3.4"
    "tok1" ⟨1, "user@example.com"⟩ rfl rfl).1

/-! ### C7: creating a record and its visibility -/

lemma postDataHandler_success (body : ReqBody) (ds : DataStore) {n ci co : String}
    (hn : lookupField body "name" = some n) (hn' : n ≠ "")
    (hci : lookupField body "city" = some ci) (hci' : ci ≠ "")
    (hco : lookupField body "country" = some co) (hco' : co ≠ "") :
    postDataHandler body ds =
      (⟨201, .dataRow ⟨ds.nextId, n, ci, co⟩⟩,
        ⟨ds.rows ++ [⟨ds.nextId, n, ci, co⟩], ds.nextId + 1⟩) := by
  simp [postDataHandler, hn, hci, hco, jsFalsy_some_ne hn', jsFalsy_some_ne hci',
    jsFalsy_some_ne hco']

lemma postDataHandler_missing (body : ReqBody) (ds : DataStore)
    (h : (jsFalsy (lookupField body "name") || jsFalsy (lookupField body "city") ||
      jsFalsy (lookupField body "country")) = true) :
    postDataHandler body ds = (⟨400, .msg "Name, city, and country are required."⟩, ds) := by
  simp [postDataHandler, h]

/-- C7: for every authenticated POST /data request (the bearer token
verifies): when name, city and country are all supplied, the response is
201 with the created record, the record is appended to the store, and a
subsequent authenticated GET /data returns a listing containing it; when
any of the three fields is missing the response is 400 and the
application state — in particular the resource store — is unchanged. -/
theorem post_data_create_and_visibility (env : Env) (now now' : Nat) (st : AppState)
    (auth auth' : Option String) (body : ReqBody) (ip ip' : String)
    (t t' : String) (c c' : JwtClaims)
    (ht : extractToken auth = some t)
    (hv : jwtVerify env.decodeToken env.jwtSecret now t = .ok c)
    (ht' : extractToken auth' = some t')
    (hv' : jwtVerify env.decodeToken env.jwtSecret now' t' = .ok c') :
    (∀ n ci co : String,
      lookupField body "name" = some n → n ≠ "" →
      lookupField body "city" = some ci → ci ≠ "" →
      lookupField body "country" = some co → co ≠ "" →
      handleApp env now st ⟨"POST", "/data", auth, body, ip⟩ =
        (⟨201, .dataRow ⟨st.dataStore.nextId, n, ci, co⟩⟩,
          { st with dataStore :=
              ⟨st.dataStore.rows ++ [⟨st.dataStore.nextId, n, ci, co⟩],
                st.dataStore.nextId + 1⟩ }) ∧
      (handleApp env now'
          { st with dataStore :=
              ⟨st.dataStore.rows ++ [⟨st.dataStore.nextId, n, ci, co⟩],
                st.dataStore.nextId + 1⟩ }
          ⟨"GET", "/data", auth', [], ip'⟩).1 =
        ⟨200, .dataRows (st.dataStore.rows ++ [⟨st.dataStore.nextId, n, ci, co⟩])⟩ ∧
      (⟨st.dataStore.nextId, n, ci, co⟩ : DataRecord) ∈
        st.dataStore.rows ++ [⟨st.dataStore.nextId, n, ci, co⟩]) ∧
    ((jsFalsy (lookupField body "name") || jsFalsy (lookupField body "city") ||
        jsFalsy (lookupField body "country")) = true →
      handleApp env now st ⟨"POST", "/data", auth, body, ip⟩ =
        (⟨400, .msg "Name, city, and country are required."⟩, st)) := by
  constructor
  · intro n ci co hn hn' hci hci' hco hco'
    refine ⟨?_, ?_, by simp⟩
    · rw [handleApp_post_data, protectedRoute_ok env now _ st _ ht hv]
      simp only [postDataHandler_success body st.dataStore hn hn' hci hci' hco hco']
    · rw [handleApp_get_data, protectedRoute_ok env now' _ _ _ ht' hv']
  · intro hmiss
    rw [handleApp_post_data, protectedRoute_ok env now _ st _ ht hv]
    simp only [postDataHandler_missing body st.dataStore hmiss]

/-- Witness for C7: creating a record with the demo token appends it with
the next id, the follow-up GET lists it, and an empty-bodied POST leaves
the state untouched. -/
theorem post_data_create_and_visibility_witness :
    handleApp envDemo 0 ⟨[], ⟨[⟨1, "Alice", "Paris", "FR"⟩], 2⟩⟩
        ⟨"POST", "/data", some "Bearer tok1",
          [("name", "Bob"), ("city", "Berlin"), ("country", "DE")], "1.2.3.4"⟩ =
      (⟨201, .dataRow ⟨2, "Bob", "Berlin", "DE"⟩⟩,
        ⟨[], ⟨[⟨1, "Alice", "Paris", "FR"⟩, ⟨2, "Bob", "Berlin", "DE"⟩], 3⟩⟩) ∧
    (handleApp envDemo 0 ⟨[], ⟨[⟨1, "Alice", "Paris", "FR"⟩, ⟨2, "Bob", "Berlin", "DE"⟩], 3⟩⟩
        ⟨"GET", "/data", some "Bearer tok1", [], "1.2.3.4"⟩).1 =
      ⟨200, .dataRows [⟨1, "Alice", "Paris", "FR"⟩, ⟨2, "Bob", "Berlin", "DE"⟩]⟩ ∧
    handleApp envDemo 0 ⟨[], ⟨[⟨1, "Alice", "Paris", "FR"⟩], 2⟩⟩
        ⟨"POST", "/data", some "Bearer tok1", [], "1.2.3.4"⟩ =
      (⟨400, .msg "Name, city, and country are required."⟩,
        ⟨[], ⟨[⟨1, "Alice", "Paris", "FR"⟩], 2⟩⟩) :=
  ⟨(((post_data_create_and_visibility envDemo 0 0 ⟨[], ⟨[⟨1, "Alice", "Paris", "FR"⟩], 2⟩⟩
      (some "Bearer tok1") (some "Bearer tok1")
      [("name", "Bob"), ("city", "Berlin"), ("country", "DE")] "1.2.3.4" "1.2.3.4"
      "tok1" "tok1" ⟨1, "user@example.com"⟩ ⟨1, "user@example.com"⟩
      rfl rfl rfl rfl).1 "Bob" "Berlin" "DE" rfl (by decide) rfl (by decide) rfl
      (by decide))).1,
   (((post_data_create_and_visibility envDemo 0 0 ⟨[], ⟨[⟨1, "Alice", "Paris", "FR"⟩], 2⟩⟩
      (some "Bearer tok1") (some "Bearer tok1")
      [("name", "Bob"), ("city", "Berlin"), ("country", "DE")] "1.2.3.4" "1.2.3.4"
      "tok1" "tok1" ⟨1, "user@example.com"⟩ ⟨1, "user@example.com"⟩
      rfl rfl rfl rfl).1 "Bob" "Berlin" "DE" rfl (by decide) rfl (by decide) rfl
      (by decide))).2.1,
   ((post_data_create_and_visibility envDemo 0 0 ⟨[], ⟨[⟨1, "Alice", "Paris", "FR"⟩], 2⟩⟩
      (some "Bearer tok1") (some "Bearer tok1") [] "1.2.3.4" "1.2.3.4"
      "tok1" "tok1" ⟨1, "user@example.com"⟩ ⟨1, "user@example.com"⟩
      rfl rfl rfl rfl).2 rfl)⟩

/-! ### C9: what `split(' ')[1]` actually extracts -/

lemma splitSp_no_space (w : List Char) (h : ' ' ∉ w) : splitSp w = [w] := by
  induction w with
  | nil => rfl
  | cons c cs ih =>
    have hc : ¬ c = ' ' := by
      intro hcc
      exact h (by simp [hcc])
    have hcs : ' ' ∉ cs := by
      intro hin
      exact h (List.mem_cons_of_mem c hin)
    simp [splitSp, hc, ih hcs]

lemma splitSp_append_space (w rest : List Char) (h : ' ' ∉ w) :
    splitSp (w ++ ' ' :: rest) = w :: splitSp rest := by
  induction w with
  | nil => simp [splitSp]
  | cons c cs ih =>
    have hc : ¬ c = ' ' := by
      intro hcc
      exact h (by simp [hcc])
    have hcs : ' ' ∉ cs := by
      intro hin
      exact h (List.mem_cons_of_mem c hin)
    simp [splitSp, hc, ih hcs]

lemma data_append_space (s t : String) : (s ++ " " ++ t).data = s.data ++ ' ' :: t.data := by
  simp [String.data_append]

lemma jsSplit_scheme (s t : String) (h : ' ' ∉ s.data) :
    jsSplit (s ++ " " ++ t) = s :: jsSplit t := by
  unfold jsSplit
  rw [data_append_space, splitSp_append_space s.data t.data h]
  rfl

lemma extractToken_some (h : String) :
    extractToken (some h) =
      match (jsSplit h).get? 1 with
      | none => none
      | some t => if t = "" then none else some t := rfl

lemma jsSplit_no_space (h : String) (hh : ' ' ∉ h.data) : jsSplit h = [h] := by
  unfold jsSplit
  rw [splitSp_no_space h.data hh]
  rfl

lemma extractToken_no_space (h : String) (hh : ' ' ∉ h.data) :
    extractToken (some h) = none := by
  rw [extractToken_some, jsSplit_no_space h hh]
  rfl

lemma extractToken_bearer (s t : String) (hs : ' ' ∉ s.data) (ht : ' ' ∉ t.data)
    (ht' : t ≠ "") :
    extractToken (some (s ++ " " ++ t)) = some t := by
  rw [extractToken_some, jsSplit_scheme s t hs, jsSplit_no_space t ht]
  simp [ht']

/-- Counterexample to C9 as stated: for the header value containing two
spaces the code does not use the substring after the first space: it
uses the second space-separated segment. -/
theorem token_not_substring_after_first_space :
    extractToken (some "Bearer a b") = some "a" ∧
    substringAfterFirstSpace "Bearer a b" = some "a b" ∧
    extractToken (some "Bearer a b") ≠ substringAfterFirstSpace "Bearer a b" := by
  exact ⟨by decide, by decide, by decide⟩

/-- C9 amended: the middleware never checks that the Authorization
scheme is Bearer.  The token is the second space-separated segment of
the header value (for the usual single-space headers, the part after the
space): the segment before the first space is ignored, so a header such
as Basic xyz has xyz verified as a JWT, yielding 403 on failure, while a
header value containing no space — including a raw token sent without a
scheme — is treated exactly like an absent header and yields the 401
missing-token response. -/
theorem bearer_scheme_never_checked :
    (∀ s₁ s₂ t : String, ' ' ∉ s₁.data → ' ' ∉ s₂.data →
      extractToken (some (s₁ ++ " " ++ t)) = extractToken (some (s₂ ++ " " ++ t))) ∧
    (∀ s t : String, ' ' ∉ s.data → ' ' ∉ t.data → t ≠ "" →
      extractToken (some (s ++ " " ++ t)) = some t) ∧
    (∀ (v : String → VerifyResult) (f : JwtClaims → Nat) (e : JwtError), v "xyz" = .err e →
      authenticateToken v (some "Basic xyz") f =
        .rejected 403 "Token is not valid or has expired") ∧
    (∀ (h : String) (v : String → VerifyResult) (f : JwtClaims → Nat), ' ' ∉ h.data →
      authenticateToken v (some h) f = authenticateToken v none f) ∧
    (∀ (v : String → VerifyResult) (f : JwtClaims → Nat),
      authenticateToken v none f = .rejected 401 "Access token is missing or invalid") := by
  refine ⟨?_, ?_, ?_, ?_, ?_⟩
  · intro s₁ s₂ t h₁ h₂
    rw [extractToken_some, extractToken_some, jsSplit_scheme s₁ t h₁, jsSplit_scheme s₂ t h₂]
    rfl
  · intro s t hs ht ht'
    exact extractToken_bearer s t hs ht ht'
  · intro v f e hv
    have hx : extractToken (some "Basic xyz") = some "xyz" := by decide
    unfold authenticateToken
    rw [hx]
    simp [hv]
  · intro h v f hh
    unfold authenticateToken
    rw [extractToken_no_space h hh]
    rfl
  · intro v f
    rfl

/-- Witness for the amended C9: a Basic-scheme header has its second
segment verified (403 on failure), and a raw token without a scheme is
answered 401 like a missing header. -/
theorem bearer_scheme_never_checked_witness :
    extractToken (some "Basic xyz") = some "xyz" ∧
    authenticateToken (fun _ => .err .badSignature) (some "Basic xyz") (fun _ => (0 : Nat)) =
      .rejected 403 "Token is not valid or has expired" ∧
    authenticateToken (fun _ => .err .badSignature) (some "rawtoken") (fun _ => (0 : Nat)) =
      .rejected 401 "Access token is missing or invalid" :=
  ⟨bearer_scheme_never_checked.2.1 "Basic" "xyz" (by decide) (by decide) (by decide),
   bearer_scheme_never_checked.2.2.1 (fun _ => .err .badSignature) (fun _ => (0 : Nat))
     .badSignature rfl,
   ((bearer_scheme_never_checked.2.2.2.1 "rawtoken" (fun _ => .err .badSignature)
       (fun _ => (0 : Nat)) (by decide)).trans
     (bearer_scheme_never_checked.2.2.2.2 (fun _ => .err .badSignature) (fun _ => (0 : Nat))))⟩

/-! ### C3: the fixed 15-minute window of 10 attempts per address -/

/-- The outcomes a single-address burst inside one window produces,
starting from a window already counting `k` hits: attempts while the
count stays within the allowance get the login handler's answer, later
ones the throttle answer. -/
def windowResults (env : Env) (body : ReqBody) : Nat → List Nat → List (Response × Bool)
  | _, [] => []
  | k, t :: ts =>
    (if k + 1 ≤ loginLimiter.max then
      ((loginHandler env t body).1, (loginHandler env t body).2)
     else (⟨429, .msg loginLimiter.message⟩, false)) :: windowResults env body (k + 1) ts

lemma rateLimitCheck_in_window (ip : String) (t0 k now : Nat)
    (h : now < t0 + loginLimiter.windowMs) :
    rateLimitCheck loginLimiter [(ip, ⟨t0, k⟩)] ip now =
      (decide (k + 1 ≤ loginLimiter.max), [(ip, ⟨t0, k + 1⟩)]) := by
  simp [rateLimitCheck, limiterUpdate, List.lookup, List.eraseP, h]

lemma rateLimitCheck_new_window (ip : String) (t0 k now : Nat)
    (h : t0 + loginLimiter.windowMs ≤ now) :
    rateLimitCheck loginLimiter [(ip, ⟨t0, k⟩)] ip now = (true, [(ip, ⟨now, 1⟩)]) := by
  have h' : ¬ now < t0 + 900000 := by
    have h2 := Nat.not_lt.mpr h
    simpa [loginLimiter] using h2
  simp [rateLimitCheck, limiterUpdate, List.lookup, List.eraseP, loginLimiter, h']

lemma runLogins_cons (env : Env) (body : ReqBody) (ip : String) (st : LimiterState)
    (t : Nat) (ts : List Nat) :
    runLogins env body ip st (t :: ts) =
      (((loginRoute env st t ip body).1, (loginRoute env st t ip body).2.2) ::
        (runLogins env body ip (loginRoute env st t ip body).2.1 ts).1,
       (runLogins env body ip (loginRoute env st t ip body).2.1 ts).2) := rfl

lemma runLogins_window (env : Env) (body : ReqBody) (ip : String) (t0 : Nat)
    (ts : List Nat) :
    ∀ k : Nat, (∀ t ∈ ts, t < t0 + loginLimiter.windowMs) →
    runLogins env body ip [(ip, ⟨t0, k⟩)] ts =
      (windowResults env body k ts, [(ip, ⟨t0, k + ts.length⟩)]) := by
  induction ts with
  | nil =>
    intro k h
    simp [runLogins, windowResults]
  | cons t ts ih =>
    intro k h
    have ht : t < t0 + loginLimiter.windowMs := h t (List.mem_cons_self t ts)
    have hts : ∀ x ∈ ts, x < t0 + loginLimiter.windowMs :=
      fun x hx => h x (List.mem_cons_of_mem t hx)
    have hcheck := rateLimitCheck_in_window ip t0 k t ht
    have hlen : k + 1 + ts.length = k + (ts.length + 1) := by omega
    by_cases hk : k + 1 ≤ loginLimiter.max
    · have hall : (rateLimitCheck loginLimiter [(ip, ⟨t0, k⟩)] ip t).1 = true := by
        rw [hcheck]
        simp [hk]
      rw [runLogins_cons, loginRoute_of_allowed env _ t ip body hall, hcheck]
      simp only []
      rw [ih (k + 1) hts, hlen]
      simp [windowResults, hk]
    · have hall : (rateLimitCheck loginLimiter [(ip, ⟨t0, k⟩)] ip t).1 = false := by
        rw [hcheck]
        simp [hk]
      rw [runLogins_cons, loginRoute_of_throttled env _ t ip body hall, hcheck]
      simp only []
      rw [ih (k + 1) hts, hlen]
      simp [windowResults, hk]

/-- C3: the login limiter implements a fixed window of 15 minutes with at
most 10 attempts per address: for every burst of 11 login attempts from
one address within a single window (all carrying a well-formed body), the
first 10 reach the login handler and hence credential checking, while the
11th is answered with the throttle message without the credential store
being consulted; once the window has elapsed, the next request opens a
fresh window with a count of 1 and is allowed again. -/
theorem login_limiter_fixed_window (env : Env) (body : ReqBody) (ip : String)
    (e p : String)
    (he : lookupField body "email" = some e) (he' : e ≠ "")
    (hp : lookupField body "password" = some p) (hp' : p ≠ "")
    (t0 t1 t2 t3 t4 t5 t6 t7 t8 t9 t10 : Nat)
    (hin : ∀ t ∈ [t1, t2, t3, t4, t5, t6, t7, t8, t9, t10],
      t < t0 + loginLimiter.windowMs) :
    (runLogins env body ip [] [t0, t1, t2, t3, t4, t5, t6, t7, t8, t9, t10]).1.map Prod.snd =
      [true, true, true, true, true, true, true, true, true, true, false] ∧
    (runLogins env body ip [] [t0, t1, t2, t3, t4, t5, t6, t7, t8, t9, t10]).1.get? 10 =
      some (⟨429, .msg loginLimiter.message⟩, false) ∧
    (runLogins env body ip [] [t0, t1, t2, t3, t4, t5, t6, t7, t8, t9, t10]).2 =
      [(ip, ⟨t0, 11⟩)] ∧
    (∀ t', t0 + loginLimiter.windowMs ≤ t' →
      rateLimitCheck loginLimiter [(ip, ⟨t0, 11⟩)] ip t' = (true, [(ip, ⟨t', 1⟩)])) := by
  have hc : ∀ tt : Nat, (loginHandler env tt body).2 = true :=
    fun tt => loginHandler_consults env tt body he he' hp hp'
  have hfresh : rateLimitCheck loginLimiter [] ip t0 = (true, [(ip, ⟨t0, 1⟩)]) := rfl
  have hall0 : (rateLimitCheck loginLimiter [] ip t0).1 = true := by rw [hfresh]
  have hrun : runLogins env body ip [] [t0, t1, t2, t3, t4, t5, t6, t7, t8, t9, t10] =
      (((loginHandler env t0 body).1, (loginHandler env t0 body).2) ::
          windowResults env body 1 [t1, t2, t3, t4, t5, t6, t7, t8, t9, t10],
        [(ip, ⟨t0, 11⟩)]) := by
    rw [runLogins_cons, loginRoute_of_allowed env [] t0 ip body hall0, hfresh]
    simp only []
    rw [runLogins_window env body ip t0 [t1, t2, t3, t4, t5, t6, t7, t8, t9, t10] 1 hin]
    simp
  refine ⟨?_, ?_, ?_, ?_⟩
  · rw [hrun]
    simp [windowResults, loginLimiter, hc]
  · rw [hrun]
    simp [windowResults, loginLimiter, List.get?]
  · rw [hrun]
  · intro t' h'
    exact rateLimitCheck_new_window ip t0 11 t' h'

/-- Witness for C3: eleven attempts from one address at millisecond times
0 through 10, with the demo user's valid body: the first ten consult the
store, the eleventh is throttled; at time 900000 the window has elapsed
and the address is allowed again. -/
theorem login_limiter_fixed_window_witness :
    (runLogins envDemo [("email", "user@example.com"), ("password", "pw")] "1.2.3.4" []
        [0, 1, 2, 3, 4, 5, 6, 7, 8, 9, 10]).1.map Prod.snd =
      [true, true, true, true, true, true, true, true, true, true, false] ∧
    (runLogins envDemo [("email", "user@example.com"), ("password", "pw")] "1.2.3.4" []
        [0, 1, 2, 3, 4, 5, 6, 7, 8, 9, 10]).1.get? 10 =
      some (⟨429, .msg loginLimiter.message⟩, false) ∧
    rateLimitCheck loginLimiter [("1.2.3.4", ⟨0, 11⟩)] "1.2.3.4" 900000 =
      (true, [("1.2.3.4", ⟨900000, 1⟩)]) := by
  have h := login_limiter_fixed_window envDemo
    [("email", "user@example.com"), ("password", "pw")] "1.2.3.4"
    "user@example.com" "pw" rfl (by decide) rfl (by decide)
    0 1 2 3 4 5 6 7 8 9 10
    (by intro t ht; fin_cases ht <;> norm_num [loginLimiter])
  exact ⟨h.1, h.2.1, h.2.2.2 900000 (by norm_num [loginLimiter])⟩

end RestApi
